import Mathlib

/-!
Verification development for the Global-South GDP dashboard (src/dfd.py).

The program is a single Streamlit script.  We shallowly embed its testable
core: data loading (load_data), schema validation (required_columns /
missing_columns), region color enrichment (the region_colors loop), and the
reshape/aggregation operations (pd.melt, year slicing, column min/max,
iloc-based endpoints), together with the top-level control flow
(st.stop on fatal errors).

Conventions of the embedding:
  - a pandas numeric cell is a rational number; a cell that may be NaN is
    an optional rational (none = NaN);
  - a user-interface emission (st.success / st.error / st.warning) is a
    UIMsg value; functions that emit messages return them in a list;
  - st.stop is modelled by the Outcome.halted constructor of the top-level
    driver runApp: everything after a stop (chart building, reshaping,
    exports) lives only inside the Outcome.rendered constructor.
-/

namespace GSD

/-- A user-interface message: st.success, st.error or st.warning. -/
inductive UIMsg where
  | success (text : String)
  | error (text : String)
  | warning (text : String)
deriving DecidableEq

/-- One data row of the loaded CSV table: the year, the global-south GDP
share percentage, and the four per-region contribution percentages
(columns 年份, 全球南方国家GDP占比(%), 亚洲贡献(%), 非洲贡献(%),
拉丁美洲贡献(%), 大洋洲贡献(%)). -/
structure Row where
  year : Int
  share : ℚ
  asia : ℚ
  africa : ℚ
  latam : ℚ
  oceania : ℚ
deriving DecidableEq

/-- The parsed dataframe: the column names the CSV actually carried, the
names of required columns that contain missing values (isnull().any()),
and the data rows. -/
structure DataFrame where
  colNames : List String
  naCols : List String
  rows : List Row
deriving DecidableEq

/-- The state of the CSV file on disk, as distinguished by load_data:
missing (FileNotFoundError), unreadable (PermissionError), unparsable
(pd.errors.ParserError), any other exception, or successfully parsed. -/
inductive FileState where
  | missing
  | unreadable
  | parseFailure (msg : String)
  | otherFailure (msg : String)
  | parsed (df : DataFrame)
deriving DecidableEq

/-- Embedding of load_data (src/dfd.py lines 75-110): every failure kind
returns None after emitting one st.error; success emits one st.success and
returns the dataframe; an empty parse result is the ValueError branch. -/
def load_data (path : String) (fs : FileState) : Option DataFrame × List UIMsg :=
  match fs with
  | .missing => (none, [UIMsg.error ("文件不存在: " ++ path)])
  | .unreadable => (none, [UIMsg.error ("没有读取权限: " ++ path)])
  | .parseFailure m => (none, [UIMsg.error ("CSV解析错误: " ++ m)])
  | .otherFailure m => (none, [UIMsg.error ("加载数据时出错: " ++ m)])
  | .parsed df =>
      if df.rows.isEmpty then (none, [UIMsg.error "CSV文件为空"])
      else (some df, [UIMsg.success ("成功加载数据: " ++ path)])

/-- The fixed required column set (src/dfd.py lines 131-138). -/
def required_columns : List String :=
  ["年份",
   "全球南方国家GDP占比(%)",
   "亚洲贡献(%)",
   "非洲贡献(%)",
   "拉丁美洲贡献(%)",
   "大洋洲贡献(%)"]

/-- Embedding of the missing-column scan (src/dfd.py line 141):
the required columns that are not among the table columns, in required
order. -/
def missing_columns (cols : List String) : List String :=
  required_columns.filter (fun c => !(cols.contains c))

/-- Warnings for required columns containing missing values
(src/dfd.py lines 148-150); non-fatal. -/
def nullWarnings (df : DataFrame) : List UIMsg :=
  (required_columns.filter (fun c => df.naCols.contains c)).map
    (fun c => UIMsg.warning ("列 " ++ c ++ " 包含缺失值，可能影响分析结果"))

/-- A raw table at column granularity: column name paired with its cells
(as strings, since the color columns hold hex color strings).  Used to
embed the color-enrichment loop, which operates on whole columns. -/
abbrev RawTable := List (String × List String)

/-- Names of the columns of a raw table. -/
def rawColNames (t : RawTable) : List String := t.map Prod.fst

/-- Number of rows of a raw table (length of its first column). -/
def rawRowCount (t : RawTable) : Nat :=
  match t with
  | [] => 0
  | c :: _ => c.2.length

/-- The fixed region-to-display-color mapping (src/dfd.py lines 153-158). -/
def region_colors : List (String × String) :=
  [("亚洲", "#32CD32"),
   ("非洲", "#FFA500"),
   ("拉丁美洲", "#FF6347"),
   ("大洋洲", "#1E90FF")]

/-- One iteration of the enrichment loop (src/dfd.py lines 160-162):
if the color column for the region is absent, append it with every cell
set to the constant color (pandas broadcasts the scalar). -/
def addColorColumn (t : RawTable) (region color : String) : RawTable :=
  if (rawColNames t).contains (region ++ "颜色") then t
  else t ++ [(region ++ "颜色", List.replicate (rawRowCount t) color)]

/-- Embedding of the whole color-enrichment loop. -/
def ensure_colors (t : RawTable) : RawTable :=
  region_colors.foldl (fun d rc => addColorColumn d rc.1 rc.2) t

/-- The fixed four-region list (src/dfd.py line 170). -/
def regions : List String := ["亚洲", "非洲", "拉丁美洲", "大洋洲"]

/-- The contribution cell of a row for a named region (access to the wide
column 区域贡献(%)). -/
def contribOf (r : Row) (region : String) : ℚ :=
  if region = "亚洲" then r.asia
  else if region = "非洲" then r.africa
  else if region = "拉丁美洲" then r.latam
  else if region = "大洋洲" then r.oceania
  else 0

/-- One record of the melted long-form table: 年份, 区域 (already renamed
from 区域贡献(%) to the bare region name by the loop at src/dfd.py
lines 448-449), and 贡献(%). -/
structure MeltedRow where
  year : Int
  region : String
  contribution : ℚ
deriving DecidableEq

/-- Embedding of pd.melt (src/dfd.py lines 439-445) followed by the region
renaming loop: pandas melt stacks the value_vars blocks one after the
other, each block keeping the table row order, so the selection order is
the outer key and the year order the inner key. -/
def melt_regions (df : DataFrame) (selected : List String) : List MeltedRow :=
  selected.flatMap (fun region =>
    df.rows.map (fun r =>
      { year := r.year, region := region, contribution := contribOf r region }))

/-- Sum of the melted contribution values of a given year. -/
def meltedYearSum (ms : List MeltedRow) (y : Int) : ℚ :=
  ((ms.filter (fun m => m.year == y)).map (fun m => m.contribution)).sum

/-- Sum of the wide-table contribution columns of the selected regions at
a given year (independent of the melt). -/
def wideYearSum (df : DataFrame) (selected : List String) (y : Int) : ℚ :=
  ((df.rows.filter (fun r => r.year == y)).map
    (fun r => (selected.map (fun region => contribOf r region)).sum)).sum

/-- Melted table in the order the specification describes (year as the
outer key, selection order as the inner key); written from the
specification words for comparison with melt_regions, which embeds the
source. -/
def spec_melt_year_outer (df : DataFrame) (selected : List String) : List MeltedRow :=
  df.rows.flatMap (fun r =>
    selected.map (fun region =>
      { year := r.year, region := region, contribution := contribOf r region }))

/-- Embedding of the year slice (src/dfd.py line 554):
df[df[年份] == selected_year]. -/
def year_slice (df : DataFrame) (y : Int) : List Row :=
  df.rows.filter (fun r => r.year == y)

/-- What the pie-chart section displays: either the pie over the selected
year's row, or the st.warning notice. -/
inductive PieOutput where
  | chart (values : List ℚ) (names : List String) (title : String)
  | noDataWarning (text : String)
deriving DecidableEq

/-- Embedding of the pie-chart section (src/dfd.py lines 553-578): slice
the table at the selected year; on an empty slice emit the warning (no
stop), otherwise build the pie from the first row of the slice. -/
def pieSection (df : DataFrame) (selected : List String) (selected_year : Int) : PieOutput :=
  match year_slice df selected_year with
  | [] => .noDataWarning ("没有找到 " ++ toString selected_year ++ " 年的数据")
  | r :: _ =>
      .chart (selected.map (fun region => contribOf r region)) selected
        (toString selected_year ++ "年各区域贡献占比")

/-- Embedding of the summary cards (src/dfd.py lines 405-424): the
starting and current share are read positionally, df.iloc[0] and
df.iloc[-1] of the share column. -/
def endpoints (df : DataFrame) : Option ℚ × Option ℚ :=
  ((df.rows.head?).map (fun r => r.share),
   (df.rows.getLast?).map (fun r => r.share))

/-- Embedding of a pandas Series min with skipna (src/dfd.py line 232):
NaN cells (none) are skipped; the result is none only when no value
remains. -/
def min_value (xs : List (Option ℚ)) : Option ℚ :=
  match xs.filterMap id with
  | [] => none
  | v :: vs => some (vs.foldl min v)

/-- Embedding of a pandas Series max with skipna (src/dfd.py line 233). -/
def max_value (xs : List (Option ℚ)) : Option ℚ :=
  match xs.filterMap id with
  | [] => none
  | v :: vs => some (vs.foldl max v)

/-- Independent full-scan minimum over the plain values, by structural
recursion; written from the specification words to compare with
min_value. -/
def spec_scan_min : List ℚ → Option ℚ
  | [] => none
  | v :: vs =>
      some (match spec_scan_min vs with
            | none => v
            | some m => min v m)

/-- Independent full-scan maximum over the plain values. -/
def spec_scan_max : List ℚ → Option ℚ
  | [] => none
  | v :: vs =>
      some (match spec_scan_max vs with
            | none => v
            | some m => max v m)

/-- The years column of the table (df[年份]). -/
def yearsOf (df : DataFrame) : List Int := df.rows.map (fun r => r.year)

/-- Minimum of the years column (df[年份].min()), used by the summary-card
labels and the year slider. -/
def spec_min_year (df : DataFrame) : Option Int :=
  match yearsOf df with
  | [] => none
  | y :: ys => some (ys.foldl min y)

/-- Maximum of the years column (df[年份].max()). -/
def spec_max_year (df : DataFrame) : Option Int :=
  match yearsOf df with
  | [] => none
  | y :: ys => some (ys.foldl max y)

/-- The share value at the first row carrying the given year; written from
the specification words (the row whose year is the given extremum, first
occurrence wins) for comparison with endpoints. -/
def spec_share_at_year (df : DataFrame) (y : Int) : Option ℚ :=
  (df.rows.find? (fun r => r.year == y)).map (fun r => r.share)

/-- The endpoint pair the specification describes: the share at the
minimum-year row and at the maximum-year row. -/
def spec_endpoints (df : DataFrame) : Option ℚ × Option ℚ :=
  ((spec_min_year df).bind (fun y => spec_share_at_year df y),
   (spec_max_year df).bind (fun y => spec_share_at_year df y))

/-- Everything the dashboard body computes from the validated table
(chart data, reshapes, exports); built only after validation passes. -/
structure Dashboard where
  lineChart : List (Int × ℚ)
  minMaxLines : Option ℚ × Option ℚ
  summaryCards : Option ℚ × Option ℚ
  melted : List MeltedRow
  pie : PieOutput
  exportRows : List Row
deriving DecidableEq

/-- Assembly of the dashboard body (src/dfd.py lines 205-620). -/
def renderDashboard (df : DataFrame) (selected : List String) (selected_year : Int) : Dashboard :=
  { lineChart := df.rows.map (fun r => (r.year, r.share))
  , minMaxLines :=
      (min_value (df.rows.map (fun r => some r.share)),
       max_value (df.rows.map (fun r => some r.share)))
  , summaryCards := endpoints df
  , melted := melt_regions df selected
  , pie := pieSection df selected selected_year
  , exportRows := df.rows }

/-- Outcome of one run of the script: halted by st.stop after the listed
messages, or fully rendered with the listed messages. -/
inductive Outcome where
  | halted (msgs : List UIMsg)
  | rendered (msgs : List UIMsg) (dash : Dashboard)
deriving DecidableEq

/-- True when the outcome is a halt. -/
def Outcome.isHalted : Outcome → Bool
  | .halted _ => true
  | .rendered _ _ => false

/-- Embedding of the top-level control flow (src/dfd.py lines 123-145 and
onwards): load, stop on load failure, stop on missing required columns,
otherwise warn about null columns and render the whole dashboard. -/
def runApp (path : String) (fs : FileState) (selected : List String) (selected_year : Int) :
    Outcome :=
  match load_data path fs with
  | (none, msgs) =>
      .halted (msgs ++ [UIMsg.error "无法继续执行：数据加载失败。请检查CSV文件路径和格式。"])
  | (some df, msgs) =>
      if missing_columns df.colNames = [] then
        .rendered (msgs ++ nullWarnings df) (renderDashboard df selected selected_year)
      else
        .halted (msgs ++
          [UIMsg.error ("CSV文件缺少必要的列: " ++
             String.intercalate ", " (missing_columns df.colNames)),
           UIMsg.error ("请确保CSV文件包含以下列: " ++
             String.intercalate ", " required_columns)])

/-- A concrete data row (year 2000). -/
def rowA : Row :=
  { year := 2000, share := 30, asia := 15, africa := 6, latam := 7, oceania := 2 }

/-- A concrete data row (year 2005). -/
def rowB : Row :=
  { year := 2005, share := 32, asia := 16, africa := 7, latam := 7, oceania := 2 }

/-- A concrete table whose rows are sorted ascending by year. -/
def dfSorted : DataFrame :=
  { colNames := required_columns, naCols := [], rows := [rowA, rowB] }

/-- A concrete table whose rows are NOT sorted ascending by year. -/
def dfUnsorted : DataFrame :=
  { colNames := required_columns, naCols := [], rows := [rowB, rowA] }

/-- A concrete table that carries only the 年份 column. -/
def dfYearOnly : DataFrame :=
  { colNames := ["年份"], naCols := [], rows := [rowA] }

/-!  Theorems.  -/

theorem rawColNames_addColorColumn_mono (t : RawTable) (r c s : String)
    (h : s ∈ rawColNames t) : s ∈ rawColNames (addColorColumn t r c) := by
  unfold addColorColumn
  split
  · exact h
  · simp only [rawColNames, List.map_append] at h ⊢
    exact List.mem_append_left _ h

theorem colName_mem_addColorColumn (t : RawTable) (r c : String) :
    (r ++ "颜色") ∈ rawColNames (addColorColumn t r c) := by
  unfold addColorColumn
  split
  case isTrue h =>
    simpa [rawColNames, List.contains, List.elem_iff] using h
  case isFalse h =>
    simp [rawColNames]

theorem addColorColumn_of_mem (t : RawTable) (r c : String)
    (h : (r ++ "颜色") ∈ rawColNames t) : addColorColumn t r c = t := by
  unfold addColorColumn
  rw [if_pos]
  simpa [List.contains, List.elem_iff] using h

/-- C8: region color enrichment is idempotent: for every table and the
fixed region-color mapping, applying the enrichment twice yields the same
table as applying it once (the second application adds no column and
changes no value). -/
theorem C8_ensure_colors_idempotent (t : RawTable) :
    ensure_colors (ensure_colors t) = ensure_colors t := by
  simp only [ensure_colors, region_colors, List.foldl_cons, List.foldl_nil]
  have m1 := colName_mem_addColorColumn t "亚洲" "#32CD32"
  have m1b := rawColNames_addColorColumn_mono _ "非洲" "#FFA500" _ m1
  have m1c := rawColNames_addColorColumn_mono _ "拉丁美洲" "#FF6347" _ m1b
  have m1d := rawColNames_addColorColumn_mono _ "大洋洲" "#1E90FF" _ m1c
  have m2 := colName_mem_addColorColumn (addColorColumn t "亚洲" "#32CD32") "非洲" "#FFA500"
  have m2c := rawColNames_addColorColumn_mono _ "拉丁美洲" "#FF6347" _ m2
  have m2d := rawColNames_addColorColumn_mono _ "大洋洲" "#1E90FF" _ m2c
  have m3 := colName_mem_addColorColumn
    (addColorColumn (addColorColumn t "亚洲" "#32CD32") "非洲" "#FFA500") "拉丁美洲" "#FF6347"
  have m3d := rawColNames_addColorColumn_mono _ "大洋洲" "#1E90FF" _ m3
  have m4 := colName_mem_addColorColumn
    (addColorColumn (addColorColumn (addColorColumn t "亚洲" "#32CD32") "非洲" "#FFA500")
      "拉丁美洲" "#FF6347") "大洋洲" "#1E90FF"
  rw [addColorColumn_of_mem _ _ _ m1d, addColorColumn_of_mem _ _ _ m2d,
    addColorColumn_of_mem _ _ _ m3d, addColorColumn_of_mem _ _ _ m4]

/-- C9 counterexample: the loader is claimed to perform no user-interface
output on any input path; at the missing-file input it emits an st.error
message itself, so the claim is false. -/
theorem C9_counterexample :
    (load_data "global_south_gdp.csv" FileState.missing).2 ≠ [] := by
  simp [load_data]

/-- C9 amended: the loader performs exactly one user-interface emission on
every input path: an st.error message precisely when it returns no table
(each failure kind), and an st.success message when it returns the parsed
table; the caller additionally surfaces its own fatal message. -/
theorem C9_amended_loader_reports (path : String) (fs : FileState) :
    (load_data path fs).2.length = 1 ∧
    ((load_data path fs).1 = none ↔ ∃ t, (load_data path fs).2 = [UIMsg.error t]) := by
  cases fs with
  | missing => simp [load_data]
  | unreadable => simp [load_data]
  | parseFailure m => simp [load_data]
  | otherFailure m => simp [load_data]
  | parsed df =>
      by_cases hemp : df.rows.isEmpty <;> simp [load_data, hemp]

/-- C2: for every parsed table missing at least one of the six required
columns, the missing-column scan reports exactly the absent required
columns (every absent one named, no present one named, all in the one
error message), and validation is fatal: the run halts. -/
theorem C2_missing_columns_exact (cols : List String)
    (hmiss : missing_columns cols ≠ []) :
    (∀ c, c ∈ missing_columns cols ↔ c ∈ required_columns ∧ c ∉ cols) ∧
    ∀ (path : String) (df : DataFrame) (selected : List String) (selected_year : Int),
      df.colNames = cols →
      ∃ msgs,
        runApp path (FileState.parsed df) selected selected_year
          = Outcome.halted msgs ∧
        (df.rows ≠ [] →
          UIMsg.error ("CSV文件缺少必要的列: " ++
            String.intercalate ", " (missing_columns cols)) ∈ msgs) := by
  constructor
  · intro c
    simp [missing_columns, List.mem_filter, List.contains, List.elem_iff]
  · intro path df selected selected_year hdf
    by_cases hemp : df.rows.isEmpty
    · refine ⟨[UIMsg.error "CSV文件为空",
        UIMsg.error "无法继续执行：数据加载失败。请检查CSV文件路径和格式。"], ?_, ?_⟩
      · simp [runApp, load_data, hemp]
      · intro hne
        exact absurd (List.isEmpty_iff.mp hemp) hne
    · refine ⟨[UIMsg.success ("成功加载数据: " ++ path)] ++
        [UIMsg.error ("CSV文件缺少必要的列: " ++
           String.intercalate ", " (missing_columns df.colNames)),
         UIMsg.error ("请确保CSV文件包含以下列: " ++
           String.intercalate ", " required_columns)], ?_, ?_⟩
      · rw [← hdf] at hmiss
        simp [runApp, load_data, hemp, hmiss]
      · intro _
        simp [hdf]

/-- C3: under every fatal condition (missing file, unreadable file, parse
failure, empty dataset, missing required columns) the run halts after the
error report: the outcome is Outcome.halted, so none of the chart,
reshape or export logic (which lives only inside Outcome.rendered) is
reached. -/
theorem C3_fatal_halts (path : String) (fs : FileState) (selected : List String)
    (selected_year : Int)
    (h : (load_data path fs).1 = none ∨
      ∃ df, (load_data path fs).1 = some df ∧ missing_columns df.colNames ≠ []) :
    (runApp path fs selected selected_year).isHalted = true := by
  unfold runApp
  split
  case h_1 res msgs heq =>
    simp [Outcome.isHalted]
  case h_2 df msgs heq =>
    rcases h with hn | ⟨df0, hd0, hmc⟩
    · rw [heq] at hn
      simp at hn
    · rw [heq] at hd0
      simp at hd0
      rw [if_neg (hd0 ▸ hmc)]
      simp [Outcome.isHalted]

/-- C2 witness: a table carrying only the 年份 column misses the other
five required columns, which the scan names exactly, and the run halts. -/
theorem C2_witness :
    (∀ c, c ∈ missing_columns ["年份"] ↔ c ∈ required_columns ∧ c ∉ ["年份"]) ∧
    ∃ msgs,
      runApp "global_south_gdp.csv" (FileState.parsed dfYearOnly) regions 2020
        = Outcome.halted msgs ∧
      (dfYearOnly.rows ≠ [] →
        UIMsg.error ("CSV文件缺少必要的列: " ++
          String.intercalate ", " (missing_columns ["年份"])) ∈ msgs) :=
  ⟨(C2_missing_columns_exact ["年份"] (by decide)).1,
   (C2_missing_columns_exact ["年份"] (by decide)).2
     "global_south_gdp.csv" dfYearOnly regions 2020 rfl⟩

/-- C3 witness: with the input file missing, the run halts. -/
theorem C3_witness :
    (runApp "global_south_gdp.csv" FileState.missing regions 2020).isHalted = true :=
  C3_fatal_halts "global_south_gdp.csv" FileState.missing regions 2020 (Or.inl rfl)

theorem melt_cons (df : DataFrame) (s : String) (rest : List String) :
    melt_regions df (s :: rest)
      = (df.rows.map (fun r =>
          ({ year := r.year, region := s, contribution := contribOf r s } : MeltedRow)))
        ++ melt_regions df rest := by
  simp [melt_regions, List.flatMap_cons]

theorem melt_length (df : DataFrame) (selected : List String) :
    (melt_regions df selected).length = selected.length * df.rows.length := by
  induction selected with
  | nil => simp [melt_regions]
  | cons s rest ih =>
      rw [melt_cons, List.length_append, List.length_map, ih, List.length_cons,
        Nat.succ_mul]
      ring

theorem melt_region_mem (df : DataFrame) (selected : List String) :
    ∀ m ∈ melt_regions df selected, m.region ∈ selected := by
  intro m hm
  simp only [melt_regions, List.mem_flatMap, List.mem_map] at hm
  obtain ⟨reg, hreg, r, _, rfl⟩ := hm
  exact hreg

theorem sum_map_zero_rows (l : List Row) : (l.map (fun _ => (0 : ℚ))).sum = 0 := by
  induction l with
  | nil => rfl
  | cons a t ih => simp [ih]

theorem meltedYearSum_append (a b : List MeltedRow) (y : Int) :
    meltedYearSum (a ++ b) y = meltedYearSum a y + meltedYearSum b y := by
  simp [meltedYearSum, List.filter_append]

theorem meltedYearSum_block (df : DataFrame) (s : String) (y : Int) :
    meltedYearSum
      (df.rows.map (fun r =>
        ({ year := r.year, region := s, contribution := contribOf r s } : MeltedRow))) y
      = ((df.rows.filter (fun r => r.year == y)).map (fun r => contribOf r s)).sum := by
  simp only [meltedYearSum, List.filter_map, List.map_map]
  rfl

theorem wideYearSum_cons (df : DataFrame) (s : String) (rest : List String) (y : Int) :
    wideYearSum df (s :: rest) y
      = ((df.rows.filter (fun r => r.year == y)).map (fun r => contribOf r s)).sum
        + wideYearSum df rest y := by
  simp only [wideYearSum, List.map_cons, List.sum_cons]
  rw [← List.sum_map_add]

theorem melt_year_sum (df : DataFrame) (selected : List String) (y : Int) :
    meltedYearSum (melt_regions df selected) y = wideYearSum df selected y := by
  induction selected with
  | nil =>
      simp [melt_regions, meltedYearSum, wideYearSum, sum_map_zero_rows]
  | cons s rest ih =>
      rw [melt_cons, meltedYearSum_append, meltedYearSum_block, ih, wideYearSum_cons]

/-- C4: for every validated table with R rows and every selection of k of
the four regions, melting produces exactly k * R long-form records, each
record's region lies in the selection, and for each year the melted
contribution values over the selection sum to the sum of that year's
wide-table contribution columns over the selection. -/
theorem C4_melt_shape (df : DataFrame) (selected : List String)
    (hsub : ∀ s ∈ selected, s ∈ regions) (hk : selected.length ≤ 4) :
    (melt_regions df selected).length = selected.length * df.rows.length ∧
    (∀ m ∈ melt_regions df selected, m.region ∈ selected) ∧
    ∀ y : Int, meltedYearSum (melt_regions df selected) y = wideYearSum df selected y :=
  ⟨melt_length df selected, melt_region_mem df selected, melt_year_sum df selected⟩

/-- C4 witness: the two-region selection over the two-row table gives
4 records, all in the selection, with matching per-year sums. -/
theorem C4_witness :
    (melt_regions dfSorted ["亚洲", "非洲"]).length
        = (["亚洲", "非洲"] : List String).length * dfSorted.rows.length ∧
    (∀ m ∈ melt_regions dfSorted ["亚洲", "非洲"], m.region ∈ (["亚洲", "非洲"] : List String)) ∧
    meltedYearSum (melt_regions dfSorted ["亚洲", "非洲"]) 2000
      = wideYearSum dfSorted ["亚洲", "非洲"] 2000 :=
  ⟨(C4_melt_shape dfSorted ["亚洲", "非洲"] (by decide) (by decide)).1,
   (C4_melt_shape dfSorted ["亚洲", "非洲"] (by decide) (by decide)).2.1,
   (C4_melt_shape dfSorted ["亚洲", "非洲"] (by decide) (by decide)).2.2 2000⟩

/-- C5 counterexample: on a two-row table with selection [亚洲, 非洲] the
melt is NOT ordered with year as the outer key: pandas melt stacks the
selected columns one after the other, so the actual order is
(2000,亚洲), (2005,亚洲), (2000,非洲), (2005,非洲) while the claim
requires (2000,亚洲), (2000,非洲), (2005,亚洲), (2005,非洲). -/
theorem C5_counterexample :
    melt_regions dfSorted ["亚洲", "非洲"]
      ≠ spec_melt_year_outer dfSorted ["亚洲", "非洲"] := by
  decide

/-- C5 amended: the melted sequence is ordered with the region-selection
ordering as the outer (primary) key and the table's year ordering as the
inner (secondary) key: the record at position j * R + i (R the row count)
is the record of the j-th selected region at the i-th table row. -/
theorem C5_amended_melt_order (df : DataFrame) (selected : List String) (j i : Nat)
    (hj : j < selected.length) (hi : i < df.rows.length) :
    (melt_regions df selected)[j * df.rows.length + i]? =
      some { year := (df.rows.get ⟨i, hi⟩).year,
             region := selected.get ⟨j, hj⟩,
             contribution := contribOf (df.rows.get ⟨i, hi⟩) (selected.get ⟨j, hj⟩) } := by
  induction selected generalizing j with
  | nil => exact absurd hj (by simp)
  | cons s rest ih =>
      rw [melt_cons df s rest]
      cases j with
      | zero =>
          have hlen : 0 * df.rows.length + i
              < (df.rows.map (fun r =>
                  ({ year := r.year, region := s, contribution := contribOf r s }
                    : MeltedRow))).length := by
            simpa using hi
          rw [List.getElem?_append, if_pos hlen]
          simp [List.getElem?_map, List.getElem?_eq_getElem hi]
      | succ j0 =>
          have hR : (df.rows.map (fun r =>
              ({ year := r.year, region := s, contribution := contribOf r s }
                : MeltedRow))).length ≤ (j0 + 1) * df.rows.length + i := by
            rw [List.length_map, Nat.succ_mul]
            omega
          rw [List.getElem?_append_right hR]
          have harith : (j0 + 1) * df.rows.length + i
              - (df.rows.map (fun r =>
                  ({ year := r.year, region := s, contribution := contribOf r s }
                    : MeltedRow))).length = j0 * df.rows.length + i := by
            rw [List.length_map, Nat.succ_mul]
            omega
          rw [harith]
          exact ih j0 (by simpa using hj)

/-- C5 witness: on the concrete table the record at position
1 * R + 0 = 2 is the first-region-of-second-selection record. -/
theorem C5_witness :
    (melt_regions dfSorted ["亚洲", "非洲"])[1 * dfSorted.rows.length + 0]? =
      some { year := 2000, region := "非洲", contribution := 6 } := by
  have h := C5_amended_melt_order dfSorted ["亚洲", "非洲"] 1 0 (by decide) (by decide)
  simpa [dfSorted, rowA, contribOf] using h

theorem foldl_min_of_le {α : Type} [LinearOrder α] (l : List α) (b : α)
    (h : ∀ x ∈ l, b ≤ x) : l.foldl min b = b := by
  induction l generalizing b with
  | nil => rfl
  | cons z zs ih =>
      have hbz : min b z = b := min_eq_left (h z (by simp))
      simp only [List.foldl_cons, hbz]
      exact ih b (fun x hx => h x (by simp [hx]))

theorem foldl_max_getLast (y : Int) (ys : List Int)
    (hp : (y :: ys).Pairwise (· < ·)) :
    some (ys.foldl max y) = (y :: ys).getLast? := by
  induction ys generalizing y with
  | nil => rfl
  | cons z zs ih =>
      have hyz : y < z := (List.pairwise_cons.mp hp).1 z (by simp)
      have hmax : max y z = z := max_eq_right (le_of_lt hyz)
      simp only [List.foldl_cons, hmax]
      rw [ih z (List.pairwise_cons.mp hp).2, List.getLast?_cons_cons]

theorem find?_year_head (r : Row) (rest : List Row) :
    List.find? (fun x => x.year == r.year) (r :: rest) = some r := by
  simp [List.find?_cons]

theorem find?_year_getLast (l : List Row) (h : l ≠ [])
    (hp : l.Pairwise (fun a b => a.year < b.year)) :
    List.find? (fun x => x.year == (l.getLast h).year) l = some (l.getLast h) := by
  induction l with
  | nil => exact absurd rfl h
  | cons r t ih =>
      cases t with
      | nil => simp [List.find?_cons]
      | cons s u =>
          have hne : (s :: u) ≠ [] := by simp
          have hlast : (r :: s :: u).getLast h = (s :: u).getLast hne :=
            List.getLast_cons hne
          have hmem : (s :: u).getLast hne ∈ s :: u := List.getLast_mem hne
          have hlt : r.year < ((s :: u).getLast hne).year :=
            (List.pairwise_cons.mp hp).1 _ hmem
          have hbeq : (r.year == ((r :: s :: u).getLast h).year) = false := by
            rw [hlast]
            exact beq_eq_false_iff_ne.mpr (ne_of_lt hlt)
          rw [List.find?_cons, hbeq, hlast]
          exact ih hne (List.pairwise_cons.mp hp).2

/-- C1 counterexample: on a table NOT sorted ascending by year, the
summary cards (df.iloc[0] / df.iloc[-1]) do not return the values at the
minimum-year and maximum-year rows: on rows with years [2005, 2000] they
return (32, 30) while the min-year and max-year values are (30, 32). -/
theorem C1_counterexample :
    endpoints dfUnsorted ≠ spec_endpoints dfUnsorted := by
  decide

/-- C1 amended: the endpoints operation returns the first and last row
values in table row order (df.iloc[0] / df.iloc[-1]); when the table rows
are sorted strictly ascending by year — the ordering the dataset assumes —
these coincide with the values at the minimum-year and maximum-year rows. -/
theorem C1_amended_endpoints (df : DataFrame) (hne : df.rows ≠ [])
    (hsorted : df.rows.Pairwise (fun a b => a.year < b.year)) :
    endpoints df = spec_endpoints df := by
  obtain ⟨r, rest, hrw⟩ := List.exists_cons_of_ne_nil hne
  have hyears : yearsOf df = r.year :: rest.map (fun x => x.year) := by
    simp [yearsOf, hrw]
  have hsorted2 : (r :: rest).Pairwise (fun a b => a.year < b.year) := hrw ▸ hsorted
  have hminfold : (rest.map (fun x => x.year)).foldl min r.year = r.year := by
    apply foldl_min_of_le
    intro x hx
    simp only [List.mem_map] at hx
    obtain ⟨b, hb, rfl⟩ := hx
    exact le_of_lt ((List.pairwise_cons.mp hsorted2).1 b hb)
  have hmin : spec_min_year df = some r.year := by
    simp [spec_min_year, hyears, hminfold]
  have hfind_min : spec_share_at_year df r.year = some r.share := by
    unfold spec_share_at_year
    rw [hrw, find?_year_head]
    rfl
  have hpy : (yearsOf df).Pairwise (· < ·) := by
    simpa [yearsOf, List.pairwise_map] using hsorted
  have hmaxval : spec_max_year df
      = some ((rest.map (fun x => x.year)).foldl max r.year) := by
    simp [spec_max_year, hyears]
  have hmax : spec_max_year df = (yearsOf df).getLast? := by
    rw [hmaxval, hyears]
    exact foldl_max_getLast r.year (rest.map (fun x => x.year)) (hyears ▸ hpy)
  have hlastq : df.rows.getLast? = some (df.rows.getLast hne) :=
    List.getLast?_eq_getLast _ hne
  have hmax2 : spec_max_year df = some (df.rows.getLast hne).year := by
    rw [hmax, yearsOf, List.getLast?_map, hlastq]
    rfl
  have hfind_max : spec_share_at_year df (df.rows.getLast hne).year
      = some (df.rows.getLast hne).share := by
    rw [spec_share_at_year, find?_year_getLast df.rows hne hsorted]
    rfl
  have hhead : df.rows.head? = some r := by rw [hrw]; rfl
  rw [endpoints, spec_endpoints, hmin, hmax2, hhead, hlastq]
  simp [hfind_min, hfind_max]

/-- C1 witness: on the concrete table sorted ascending by year, the
endpoints equal the min-year and max-year values. -/
theorem C1_witness : endpoints dfSorted = spec_endpoints dfSorted :=
  C1_amended_endpoints dfSorted (by decide) (by decide)

/-- C6: for every validated table and a year absent from the year column,
the year slice is empty rather than an error: the pie section emits the
st.warning notice, and the run as a whole still renders the dashboard
(no halt), with the warning in place of the pie. -/
theorem C6_year_slice_missing_year (df : DataFrame) (path : String)
    (selected : List String) (y : Int)
    (habsent : ∀ r ∈ df.rows, r.year ≠ y) (hne : df.rows ≠ [])
    (hcols : missing_columns df.colNames = []) :
    year_slice df y = [] ∧
    pieSection df selected y
      = PieOutput.noDataWarning ("没有找到 " ++ toString y ++ " 年的数据") ∧
    ∃ msgs dash,
      runApp path (FileState.parsed df) selected y = Outcome.rendered msgs dash ∧
      dash.pie = PieOutput.noDataWarning ("没有找到 " ++ toString y ++ " 年的数据") := by
  have hslice : year_slice df y = [] := by
    rw [year_slice, List.filter_eq_nil_iff]
    intro r hr
    simpa using habsent r hr
  have hpie : pieSection df selected y
      = PieOutput.noDataWarning ("没有找到 " ++ toString y ++ " 年的数据") := by
    rw [pieSection, hslice]
  refine ⟨hslice, hpie, [UIMsg.success ("成功加载数据: " ++ path)] ++ nullWarnings df,
    renderDashboard df selected y, ?_, ?_⟩
  · have hemp : df.rows.isEmpty = false := by
      simpa [List.isEmpty_iff] using hne
    simp [runApp, load_data, hemp, hcols]
  · simpa [renderDashboard] using hpie

/-- C6 witness: year 1999 is absent from the concrete table; the slice is
empty and the pie section shows the notice. -/
theorem C6_witness :
    year_slice dfSorted 1999 = [] ∧
    pieSection dfSorted regions 1999
      = PieOutput.noDataWarning ("没有找到 " ++ toString (1999 : Int) ++ " 年的数据") := by
  have h := C6_year_slice_missing_year dfSorted "global_south_gdp.csv" regions 1999
    (by decide) (by decide) (by decide)
  exact ⟨h.1, h.2.1⟩

theorem foldl_min_mem {α : Type} [LinearOrder α] (l : List α) (b : α) :
    l.foldl min b ∈ b :: l := by
  induction l generalizing b with
  | nil => simp
  | cons z zs ih =>
      simp only [List.foldl_cons]
      rcases List.mem_cons.mp (ih (min b z)) with h | h
      · rcases min_choice b z with hm | hm <;> rw [h, hm] <;> simp
      · simp [h]

theorem foldl_min_le {α : Type} [LinearOrder α] (l : List α) (b : α) :
    ∀ x ∈ b :: l, l.foldl min b ≤ x := by
  induction l generalizing b with
  | nil =>
      intro x hx
      simp at hx
      simp [hx]
  | cons z zs ih =>
      intro x hx
      simp only [List.foldl_cons]
      rcases List.mem_cons.mp hx with heq | hx2
      · rw [heq]
        exact le_trans (ih (min b z) (min b z) (by simp)) (min_le_left _ _)
      · rcases List.mem_cons.mp hx2 with heq | hx3
        · rw [heq]
          exact le_trans (ih (min b z) (min b z) (by simp)) (min_le_right _ _)
        · exact ih (min b z) x (by simp [hx3])

theorem foldl_max_mem {α : Type} [LinearOrder α] (l : List α) (b : α) :
    l.foldl max b ∈ b :: l := by
  induction l generalizing b with
  | nil => simp
  | cons z zs ih =>
      simp only [List.foldl_cons]
      rcases List.mem_cons.mp (ih (max b z)) with h | h
      · rcases max_choice b z with hm | hm <;> rw [h, hm] <;> simp
      · simp [h]

theorem foldl_max_ge {α : Type} [LinearOrder α] (l : List α) (b : α) :
    ∀ x ∈ b :: l, x ≤ l.foldl max b := by
  induction l generalizing b with
  | nil =>
      intro x hx
      simp at hx
      simp [hx]
  | cons z zs ih =>
      intro x hx
      simp only [List.foldl_cons]
      rcases List.mem_cons.mp hx with heq | hx2
      · rw [heq]
        exact le_trans (le_max_left _ _) (ih (max b z) (max b z) (by simp))
      · rcases List.mem_cons.mp hx2 with heq | hx3
        · rw [heq]
          exact le_trans (le_max_right _ _) (ih (max b z) (max b z) (by simp))
        · exact ih (max b z) x (by simp [hx3])

theorem foldl_min_eq_scan (l : List ℚ) (b : ℚ) :
    l.foldl min b = match spec_scan_min l with
                    | none => b
                    | some m => min b m := by
  induction l generalizing b with
  | nil => rfl
  | cons z zs ih =>
      simp only [List.foldl_cons, spec_scan_min]
      rw [ih (min b z)]
      cases h : spec_scan_min zs with
      | none => simp [h]
      | some m => simp [h, min_assoc]

theorem foldl_max_eq_scan (l : List ℚ) (b : ℚ) :
    l.foldl max b = match spec_scan_max l with
                    | none => b
                    | some m => max b m := by
  induction l generalizing b with
  | nil => rfl
  | cons z zs ih =>
      simp only [List.foldl_cons, spec_scan_max]
      rw [ih (max b z)]
      cases h : spec_scan_max zs with
      | none => simp [h]
      | some m => simp [h, max_assoc]

theorem min_max_value_spec (xs : List (Option ℚ)) (hne : xs.filterMap id ≠ []) :
    ∃ m M, min_value xs = some m ∧ max_value xs = some M ∧
      m ∈ xs.filterMap id ∧ M ∈ xs.filterMap id ∧ m ≤ M ∧
      (∀ v ∈ xs.filterMap id, m ≤ v ∧ v ≤ M) ∧
      min_value xs = spec_scan_min (xs.filterMap id) ∧
      max_value xs = spec_scan_max (xs.filterMap id) := by
  obtain ⟨v, vs, hvals⟩ := List.exists_cons_of_ne_nil hne
  refine ⟨vs.foldl min v, vs.foldl max v, ?_, ?_, ?_, ?_, ?_, ?_, ?_, ?_⟩
  · simp [min_value, hvals]
  · simp [max_value, hvals]
  · rw [hvals]
    exact foldl_min_mem vs v
  · rw [hvals]
    exact foldl_max_mem vs v
  · exact le_trans (foldl_min_le vs v (vs.foldl max v) (foldl_max_mem vs v))
      (le_refl _)
  · intro w hw
    rw [hvals] at hw
    exact ⟨foldl_min_le vs v w hw, foldl_max_ge vs v w hw⟩
  · rw [hvals]
    simp only [min_value, hvals, spec_scan_min]
    rw [foldl_min_eq_scan]
  · rw [hvals]
    simp only [max_value, hvals, spec_scan_max]
    rw [foldl_max_eq_scan]

/-- C7: over a non-empty column with no missing values, the min and max
both occur in the column, min is at most max, and both equal the result
of an independent full scan. -/
theorem C7_extrema (xs : List (Option ℚ)) (hne : xs ≠ [])
    (hall : ∀ x ∈ xs, x ≠ none) :
    min_value xs = spec_scan_min (xs.filterMap id) ∧
    max_value xs = spec_scan_max (xs.filterMap id) ∧
    ∃ m M, min_value xs = some m ∧ max_value xs = some M ∧
      some m ∈ xs ∧ some M ∈ xs ∧ m ≤ M ∧
      ∀ v ∈ xs.filterMap id, m ≤ v ∧ v ≤ M := by
  have hvne : xs.filterMap id ≠ [] := by
    cases xs with
    | nil => exact absurd rfl hne
    | cons x xt =>
        cases x with
        | none => exact absurd rfl (hall none (by simp))
        | some v => simp [List.filterMap_cons]
  obtain ⟨m, M, h1, h2, h3, h4, h5, h6, h7, h8⟩ := min_max_value_spec xs hvne
  have hmem : ∀ w : ℚ, w ∈ xs.filterMap id → some w ∈ xs := by
    intro w hw
    obtain ⟨a, ha, haeq⟩ := List.mem_filterMap.mp hw
    simp only [id] at haeq
    exact haeq ▸ ha
  exact ⟨h7, h8, m, M, h1, h2, hmem m h3, hmem M h4, h5, h6⟩

/-- C7 witness: the column [30, 32, 35] with no missing values. -/
theorem C7_witness :
    min_value [some 30, some 32, some (35 : ℚ)]
        = spec_scan_min ([some 30, some 32, some (35 : ℚ)].filterMap id) ∧
    max_value [some 30, some 32, some (35 : ℚ)]
        = spec_scan_max ([some 30, some 32, some (35 : ℚ)].filterMap id) ∧
    ∃ m M, min_value [some 30, some 32, some (35 : ℚ)] = some m ∧
      max_value [some 30, some 32, some (35 : ℚ)] = some M ∧
      some m ∈ [some 30, some 32, some (35 : ℚ)] ∧
      some M ∈ [some 30, some 32, some (35 : ℚ)] ∧ m ≤ M ∧
      ∀ v ∈ [some 30, some 32, some (35 : ℚ)].filterMap id, m ≤ v ∧ v ≤ M :=
  C7_extrema [some 30, some 32, some (35 : ℚ)] (by decide) (by decide)

/-- C10: when the column has missing values but at least one value, min
and max are computed over the non-missing entries only: both results are
actual column values bounding every non-missing entry. -/
theorem C10_extrema_skip_missing (xs : List (Option ℚ)) (hmiss : none ∈ xs)
    (hne : xs.filterMap id ≠ []) :
    ∃ m M, min_value xs = some m ∧ max_value xs = some M ∧
      m ∈ xs.filterMap id ∧ M ∈ xs.filterMap id ∧ m ≤ M ∧
      ∀ v ∈ xs.filterMap id, m ≤ v ∧ v ≤ M := by
  obtain ⟨m, M, h1, h2, h3, h4, h5, h6, _, _⟩ := min_max_value_spec xs hne
  exact ⟨m, M, h1, h2, h3, h4, h5, h6⟩

/-- C10 witness: the column [none, 35, 30] has a missing value; min and
max are 30 and 35, both actual values. -/
theorem C10_witness :
    ∃ m M, min_value [none, some 35, some (30 : ℚ)] = some m ∧
      max_value [none, some 35, some (30 : ℚ)] = some M ∧
      m ∈ [none, some 35, some (30 : ℚ)].filterMap id ∧
      M ∈ [none, some 35, some (30 : ℚ)].filterMap id ∧ m ≤ M ∧
      ∀ v ∈ [none, some 35, some (30 : ℚ)].filterMap id, m ≤ v ∧ v ≤ M :=
  C10_extrema_skip_missing [none, some 35, some (30 : ℚ)] (by decide) (by decide)

end GSD

